import Mathlib

/-!
Formal verification of the SetDB backend's OAuth identity broker:
a shallow embedding of `backend/app/api/auth.py` and
`backend/app/services/google_oauth.py`, together with theorems checking
the natural-language specification of the subsystem against the code.

Time is modelled as `Nat`. Datetime arithmetic in the Python source uses
`datetime.utcnow()` plus `timedelta`; the state store works in minutes
(`_STATE_EXPIRY_MINUTES = 10`) and the token custodian in seconds
(a 5-minute = 300-second refresh buffer, `expires_in` seconds).
-/

namespace SetDB

/-- Python truthiness of an optional string column or `.get(...)` result:
`None` and `""` are falsy, every other string is truthy. -/
def optTruthy : Option String → Bool
  | none => false
  | some s => s != ""

/-- Python truthiness of an optional number (`expires_in`): `None` and `0` are falsy. -/
def optNatTruthy : Option Nat → Bool
  | none => false
  | some n => n != 0

/-! Python string primitives (`lower`, `replace`, `endswith`, `in`, slicing,
`split("@")[0]`), implemented over the character list so that every operation
is kernel-computable. The inputs in this subsystem are ASCII, so `lower` is
the ASCII case map. -/

/-- Does `pat` occur at the head of `s`? (helper for `replace` and `in`). -/
def listStartsWith : List Char → List Char → Bool
  | _, [] => true
  | [], _ :: _ => false
  | c :: cs, d :: ds => c == d && listStartsWith cs ds

/-- Python's substring test `pat in s`. -/
def containsAux (pat : List Char) : List Char → Bool
  | [] => pat.isEmpty
  | s@(_ :: rest) => listStartsWith s pat || containsAux pat rest

/-- Python's substring test `pat in s`. -/
def strContains (s pat : String) : Bool := containsAux pat.data s.data

/-- Python's `str.replace(old, new)` over the character list: replace
non-overlapping occurrences left to right (`old` non-empty in every use
here); `fuel` bounds the scan, one position per step. -/
def replaceList (old new : List Char) : Nat → List Char → List Char
  | 0, s => s
  | fuel + 1, s =>
    match s with
    | [] => []
    | c :: rest =>
      if !old.isEmpty && listStartsWith s old then
        new ++ replaceList old new fuel (s.drop old.length)
      else
        c :: replaceList old new fuel rest

/-- Python's `str.replace(old, new)`. -/
def strReplace (s old new : String) : String :=
  String.mk (replaceList old.data new.data s.data.length s.data)

/-- Python's `str.endswith(suffix)`. -/
def strEndsWith (s suffix : String) : Bool :=
  decide (suffix.data.length ≤ s.data.length) &&
    decide (s.data.drop (s.data.length - suffix.data.length) = suffix.data)

/-- ASCII `str.lower` on one character. -/
def lowerChar (c : Char) : Char :=
  if 65 ≤ c.toNat ∧ c.toNat ≤ 90 then Char.ofNat (c.toNat + 32) else c

/-- Python's `str.lower()` (ASCII). -/
def strLower (s : String) : String := String.mk (s.data.map lowerChar)

/-- Python's `s[:n]` character slice. -/
def strTake (s : String) (n : Nat) : String := String.mk (s.data.take n)

/-- Python's `email.split("@")[0]`: the characters before the first `'@'`
(the whole string when there is none). -/
def takeUntilAt : List Char → List Char
  | [] => []
  | c :: rest => if c = '@' then [] else c :: takeUntilAt rest

/-- Python's `email.split("@")[0]`. -/
def emailLocalPart (s : String) : String := String.mk (takeUntilAt s.data)

/-! ## Pending-authorization state store

Embeds the module-level `_oauth_states : Dict[str, datetime]` of
`backend/app/api/auth.py` (lines 45-72) as an association list from state
token to expiry time, with at most one live entry per key (the Python dict
guarantees key uniqueness; `storeState` erases any previous entry before
appending). -/

/-- `_STATE_EXPIRY_MINUTES = 10` (auth.py line 48). -/
def stateExpiryMinutes : Nat := 10

/-- The `_oauth_states` dict: state token ↦ absolute expiry time (minutes). -/
abbrev OAuthStates := List (String × Nat)

/-- `_cleanup_expired_states` (auth.py lines 50-58): delete every entry with
`now > expiry`, i.e. keep exactly the entries with `now ≤ expiry`. -/
def cleanupExpiredStates (now : Nat) (st : OAuthStates) : OAuthStates :=
  st.filter (fun p => decide (now ≤ p.2))

/-- `_store_state` (auth.py lines 60-64): purge expired entries, then bind the
token to `now + _STATE_EXPIRY_MINUTES` (dict assignment replaces any
previous binding of the same key). -/
def storeState (state : String) (now : Nat) (st : OAuthStates) : OAuthStates :=
  (cleanupExpiredStates now st).filter (fun p => p.1 != state)
    ++ [(state, now + stateExpiryMinutes)]

/-- `_validate_and_consume_state` (auth.py lines 66-72): purge expired entries,
then on membership delete the entry and return `true`, else return `false`. -/
def validateAndConsumeState (state : String) (now : Nat) (st : OAuthStates) :
    Bool × OAuthStates :=
  let st1 := cleanupExpiredStates now st
  if st1.any (fun p => p.1 == state) then
    (true, st1.filter (fun p => p.1 != state))
  else
    (false, st1)

/-- A sequence of `_validate_and_consume_state` calls with the same token at the
given times, threading the store; returns the list of boolean results. -/
def runValidates (state : String) : OAuthStates → List Nat → List Bool × OAuthStates
  | st, [] => ([], st)
  | st, t :: ts =>
    let r := validateAndConsumeState state t st
    let rest := runValidates state r.2 ts
    (r.1 :: rest.1, rest.2)

/-- The state-issuing step of `GET /auth/google/authorize`
(auth.py lines 371-375): it writes into the shared `_oauth_states` store. -/
def googleAuthorizeIssue (state : String) (now : Nat) (st : OAuthStates) : OAuthStates :=
  storeState state now st

/-- The state-issuing step of `GET /auth/soundcloud/authorize`
(auth.py lines 171-175): it writes into the shared `_oauth_states` store. -/
def soundcloudAuthorizeIssue (state : String) (now : Nat) (st : OAuthStates) : OAuthStates :=
  storeState state now st

/-- The state-validation step of `POST /auth/google/callback`
(auth.py line 499): it consumes from the shared `_oauth_states` store. -/
def googleCallbackConsume (state : String) (now : Nat) (st : OAuthStates) :
    Bool × OAuthStates :=
  validateAndConsumeState state now st

/-- The state-validation step of `POST /auth/soundcloud/callback`
(auth.py line 251): it consumes from the shared `_oauth_states` store. -/
def soundcloudCallbackConsume (state : String) (now : Nat) (st : OAuthStates) :
    Bool × OAuthStates :=
  validateAndConsumeState state now st

/-- Membership of a token among the keys of the store. -/
def hasState (state : String) (st : OAuthStates) : Bool :=
  st.any (fun p => p.1 == state)

lemma hasState_filter (state : String) (q : String × Nat → Bool) (st : OAuthStates)
    (h : hasState state st = false) : hasState state (st.filter q) = false := by
  induction st with
  | nil => rfl
  | cons p st ih =>
    simp only [hasState, List.any_cons, Bool.or_eq_false_iff] at h
    by_cases hq : q p
    · simp only [hasState, List.filter_cons_of_pos hq, List.any_cons,
        Bool.or_eq_false_iff]
      exact ⟨h.1, ih h.2⟩
    · simp only [List.filter_cons_of_neg (by simpa using hq)]
      exact ih h.2

lemma hasState_erase (state : String) (st : OAuthStates) :
    hasState state (st.filter (fun p => p.1 != state)) = false := by
  induction st with
  | nil => rfl
  | cons p st ih =>
    by_cases hp : p.1 = state
    · simp only [List.filter_cons, hp]
      simp [ih]
    · simp only [List.filter_cons, hasState, List.any_cons]
      simp [hp, ih]

lemma validate_absent (state : String) (now : Nat) (st : OAuthStates)
    (h : hasState state st = false) :
    validateAndConsumeState state now st = (false, cleanupExpiredStates now st) := by
  have h1 : hasState state (cleanupExpiredStates now st) = false :=
    hasState_filter state _ st h
  simp only [hasState] at h1
  simp [validateAndConsumeState, h1]

lemma runValidates_absent (state : String) (st : OAuthStates) (ts : List Nat)
    (h : hasState state st = false) :
    (runValidates state st ts).1 = ts.map (fun _ => false) := by
  induction ts generalizing st with
  | nil => rfl
  | cons t ts ih =>
    have hv := validate_absent state t st h
    have h1 : hasState state (cleanupExpiredStates t st) = false :=
      hasState_filter state _ st h
    simp only [runValidates, hv, List.map_cons]
    exact congrArg (false :: ·) (ih _ h1)

/-- **C2.** For every state value recorded by the pending-authorization store,
`_validate_and_consume_state` returns `true` exactly once across any number of
calls with that value: `true` on the first call made before the state's
10-minute expiry, and `false` on every subsequent call with the same value. -/
theorem state_single_use (st0 : OAuthStates) (s : String) (t0 t1 : Nat)
    (ts : List Nat) (h : t1 < t0 + stateExpiryMinutes) :
    (runValidates s (storeState s t0 st0) (t1 :: ts)).1 =
      true :: ts.map (fun _ => false) := by
  have hmem : hasState s (cleanupExpiredStates t1 (storeState s t0 st0)) = true := by
    simp only [storeState, cleanupExpiredStates, hasState, List.filter_append,
      List.any_append]
    have : t1 ≤ t0 + stateExpiryMinutes := Nat.le_of_lt h
    simp [this]
  have hv : validateAndConsumeState s t1 (storeState s t0 st0) =
      (true, (cleanupExpiredStates t1 (storeState s t0 st0)).filter
        (fun p => p.1 != s)) := by
    simp only [hasState] at hmem
    simp [validateAndConsumeState, hmem]
  have habsent : hasState s
      ((cleanupExpiredStates t1 (storeState s t0 st0)).filter
        (fun p => p.1 != s)) = false :=
    hasState_erase s _
  simp only [runValidates, hv]
  exact congrArg (true :: ·) (runValidates_absent s _ ts habsent)

/-- Witness for C2 at concrete inputs: store `"s1"` at time 0, validate at
times 5, 6, 7 — results are `true`, `false`, `false`. -/
theorem state_single_use_witness :
    (5 : Nat) < 0 + stateExpiryMinutes ∧
      (runValidates "s1" (storeState "s1" 0 []) [5, 6, 7]).1 = [true, false, false] :=
  ⟨by decide, state_single_use [] "s1" 0 5 [6, 7] (by decide)⟩

/-- **C10.** Pending states live in one store shared by both providers and are
not bound to the issuing provider: a state issued by the Google authorize
endpoint and not yet expired is consumed successfully by the SoundCloud
callback's validation (returns `true` and removes the entry), and vice versa. -/
theorem state_store_shared_across_providers (st0 : OAuthStates) (s : String)
    (t0 t1 : Nat) (h : t1 ≤ t0 + stateExpiryMinutes) :
    (soundcloudCallbackConsume s t1 (googleAuthorizeIssue s t0 st0)).1 = true ∧
      hasState s (soundcloudCallbackConsume s t1 (googleAuthorizeIssue s t0 st0)).2
        = false ∧
      (googleCallbackConsume s t1 (soundcloudAuthorizeIssue s t0 st0)).1 = true ∧
      hasState s (googleCallbackConsume s t1 (soundcloudAuthorizeIssue s t0 st0)).2
        = false := by
  have hmem : hasState s (cleanupExpiredStates t1 (storeState s t0 st0)) = true := by
    simp only [storeState, cleanupExpiredStates, hasState, List.filter_append,
      List.any_append]
    simp [h]
  have hv : validateAndConsumeState s t1 (storeState s t0 st0) =
      (true, (cleanupExpiredStates t1 (storeState s t0 st0)).filter
        (fun p => p.1 != s)) := by
    simp only [hasState] at hmem
    simp [validateAndConsumeState, hmem]
  refine ⟨?_, ?_, ?_, ?_⟩ <;>
    simp only [soundcloudCallbackConsume, googleAuthorizeIssue,
      googleCallbackConsume, soundcloudAuthorizeIssue, hv]
  · exact hasState_erase s _
  · exact hasState_erase s _

/-- Witness for C10 at concrete inputs: a state issued by one provider's
authorize endpoint at time 0 is consumed by the other provider's callback at
time 10. -/
theorem state_store_shared_across_providers_witness :
    (10 : Nat) ≤ 0 + stateExpiryMinutes ∧
      (soundcloudCallbackConsume "x" 10 (googleAuthorizeIssue "x" 0 [])).1 = true ∧
      (googleCallbackConsume "x" 10 (soundcloudAuthorizeIssue "x" 0 [])).1 = true :=
  ⟨by decide,
    (state_store_shared_across_providers [] "x" 0 10 (by decide)).1,
    (state_store_shared_across_providers [] "x" 0 10 (by decide)).2.2.1⟩

/-! ## Account model and identity resolution

Embeds the `User` row fields touched by the OAuth subsystem
(`backend/app/models.py` lines 50-68) and the identity-resolution logic of
the two callback handlers (`soundcloud_callback`, auth.py lines 287-360, and
`google_callback`, auth.py lines 573-676). The database is modelled as a list
of users; `scalar_one_or_none` point queries become `List.find?`. -/

structure User where
  username : String
  email : String
  hashedPassword : Option String
  displayName : Option String
  avatarUrl : Option String
  soundcloudUserId : Option String
  soundcloudAccessToken : Option String
  soundcloudRefreshToken : Option String
  googleUserId : Option String
  googleAccessToken : Option String
  googleRefreshToken : Option String
  googleTokenExpiresAt : Option Nat
deriving Repr, DecidableEq

/-- The existing-user branch of `soundcloud_callback` (auth.py lines 293-306):
overwrite the SoundCloud tokens; set `avatar_url` whenever the profile avatar
is non-empty; set `display_name` only when the profile name is non-empty and
the local value is falsy; rewrite an `@soundcloud.local` e-mail to
`@soundcloud.oauth`. -/
def soundcloudUpdateExisting (u : User) (accessToken : String)
    (refreshToken : Option String) (fullName avatar : String) : User :=
  { u with
    soundcloudAccessToken := some accessToken
    soundcloudRefreshToken := refreshToken
    avatarUrl := if avatar != "" then some avatar else u.avatarUrl
    displayName :=
      if fullName != "" && !optTruthy u.displayName then some fullName
      else u.displayName
    email :=
      if u.email != "" && strEndsWith u.email "@soundcloud.local" then
        strReplace u.email "@soundcloud.local" "" ++ "@soundcloud.oauth"
      else u.email }

/-- The existing-user branch of `google_callback` (auth.py lines 580-588):
overwrite the Google tokens; set `avatar_url` and `display_name` only when the
profile value is non-empty and the local value is falsy. -/
def googleUpdateExisting (u : User) (accessToken : String)
    (refreshToken : Option String) (tokenExpiresAt : Option Nat)
    (name picture : String) : User :=
  { u with
    googleAccessToken := some accessToken
    googleRefreshToken := refreshToken
    googleTokenExpiresAt := tokenExpiresAt
    avatarUrl :=
      if picture != "" && !optTruthy u.avatarUrl then some picture
      else u.avatarUrl
    displayName :=
      if name != "" && !optTruthy u.displayName then some name
      else u.displayName }

/-- The link-by-e-mail branch of `google_callback` (auth.py lines 604-613):
set `google_user_id` and the token fields on the account found by e-mail, and
apply the same conditional profile-field updates. -/
def googleLinkByEmail (u : User) (googleUserId accessToken : String)
    (refreshToken : Option String) (tokenExpiresAt : Option Nat)
    (name picture : String) : User :=
  { u with
    googleUserId := some googleUserId
    googleAccessToken := some accessToken
    googleRefreshToken := refreshToken
    googleTokenExpiresAt := tokenExpiresAt
    avatarUrl :=
      if picture != "" && !optTruthy u.avatarUrl then some picture
      else u.avatarUrl
    displayName :=
      if name != "" && !optTruthy u.displayName then some name
      else u.displayName }

/-- `re.sub(r'[^a-z0-9_]', '', s)` (auth.py line 633). -/
def sanitizeUsername (s : String) : String :=
  String.mk (s.data.filter fun c =>
    decide ((97 ≤ c.toNat ∧ c.toNat ≤ 122) ∨ (48 ≤ c.toNat ∧ c.toNat ≤ 57) ∨
      c.toNat = 95))

/-- Base-username derivation of `google_callback` (auth.py lines 623-633):
profile name, else e-mail local part, else `"google_user"`, sanitized. -/
def deriveGoogleBaseUsername (name email : String) : String :=
  sanitizeUsername
    (if name != "" then strReplace (strLower name) " " "_"
     else if email != "" then strLower (emailLocalPart email)
     else "google_user")

/-- Base-username derivation of `soundcloud_callback` (auth.py line 317). -/
def deriveSoundcloudBaseUsername (scUsername : String) : String :=
  strReplace (strLower scUsername) " " "_"

/-- The `while True` collision loop shared verbatim by `soundcloud_callback`
(auth.py lines 318-327) and `google_callback` (auth.py lines 635-644): try the
base, then `base_1`, `base_2`, … until the candidate is not taken. The Python
loop terminates because the taken usernames are finitely many; `fuel` bounds
the iterations. -/
def usernameLoop (taken : List String) (base : String) :
    Nat → Nat → String → String
  | 0, _, current => current
  | fuel + 1, counter, current =>
    if taken.contains current then
      usernameLoop taken base fuel (counter + 1) (base ++ "_" ++ toString counter)
    else current

/-- Username collision resolution: run the loop with enough fuel to cover every
taken username plus one free candidate. -/
def uniqueUsername (taken : List String) (base : String) : String :=
  usernameLoop taken base (taken.length + 1) 1 base

/-- The analogous e-mail collision loop (auth.py lines 334-341 for SoundCloud,
lines 649-656 for Google): candidates `username_counter` at the placeholder
domain. -/
def emailLoop (taken : List String) (username suffix : String) :
    Nat → Nat → String → String
  | 0, _, current => current
  | fuel + 1, counter, current =>
    if taken.contains current then
      emailLoop taken username suffix fuel (counter + 1)
        (username ++ "_" ++ toString counter ++ suffix)
    else current

/-- The new-user branch of `google_callback` (auth.py lines 622-668). -/
def googleCreateUser (db : List User) (pid email name picture accessToken : String)
    (refreshToken : Option String) (tokenExpiresAt : Option Nat) : User :=
  let usernames := db.map User.username
  let username := uniqueUsername usernames (deriveGoogleBaseUsername name email)
  let emails := db.map User.email
  let firstEmail := if email != "" then email else username ++ "@google.oauth"
  let email' := emailLoop emails username "@google.oauth" (emails.length + 1) 1 firstEmail
  { username := username
    email := email'
    hashedPassword := none
    displayName := some (if name != "" then name else username)
    avatarUrl := some picture
    soundcloudUserId := none
    soundcloudAccessToken := none
    soundcloudRefreshToken := none
    googleUserId := some pid
    googleAccessToken := some accessToken
    googleRefreshToken := refreshToken
    googleTokenExpiresAt := tokenExpiresAt }

/-- The new-user branch of `soundcloud_callback` (auth.py lines 315-352). -/
def soundcloudCreateUser (db : List User)
    (scId scUsername fullName avatar accessToken : String)
    (refreshToken : Option String) : User :=
  let usernames := db.map User.username
  let username := uniqueUsername usernames (deriveSoundcloudBaseUsername scUsername)
  let emails := db.map User.email
  let email' := emailLoop emails username "@soundcloud.oauth" (emails.length + 1) 1
    (username ++ "@soundcloud.oauth")
  { username := username
    email := email'
    hashedPassword := none
    displayName := some (if fullName != "" then fullName else scUsername)
    avatarUrl := some avatar
    soundcloudUserId := some scId
    soundcloudAccessToken := some accessToken
    soundcloudRefreshToken := refreshToken
    googleUserId := none
    googleAccessToken := none
    googleRefreshToken := none
    googleTokenExpiresAt := none }

/-- The outcome of identity resolution: which branch fired and the persisted
(updated or created) account row. -/
inductive ResolveResult where
  | existingById (u : User)
  | linkedByEmail (u : User)
  | created (u : User)
deriving Repr, DecidableEq

/-- Identity resolution of `google_callback` (auth.py lines 573-668): lookup by
`google_user_id`; else, if the profile e-mail is non-empty, lookup by e-mail
and link; else create. -/
def googleResolve (db : List User) (pid email name picture accessToken : String)
    (refreshToken : Option String) (tokenExpiresAt : Option Nat) : ResolveResult :=
  match db.find? (fun u => u.googleUserId == some pid) with
  | some u =>
    .existingById (googleUpdateExisting u accessToken refreshToken tokenExpiresAt
      name picture)
  | none =>
    match (if email != "" then db.find? (fun u => u.email == email) else none) with
    | some u =>
      .linkedByEmail (googleLinkByEmail u pid accessToken refreshToken
        tokenExpiresAt name picture)
    | none =>
      .created (googleCreateUser db pid email name picture accessToken
        refreshToken tokenExpiresAt)

/-- Identity resolution of `soundcloud_callback` (auth.py lines 287-352):
lookup by `soundcloud_user_id`; else create (SoundCloud has no
link-by-e-mail branch). -/
def soundcloudResolve (db : List User)
    (scId scUsername fullName avatar accessToken : String)
    (refreshToken : Option String) : ResolveResult :=
  match db.find? (fun u => u.soundcloudUserId == some scId) with
  | some u =>
    .existingById (soundcloudUpdateExisting u accessToken refreshToken fullName avatar)
  | none =>
    .created (soundcloudCreateUser db scId scUsername fullName avatar accessToken
      refreshToken)

/-- A local account with both profile fields populated, used to exercise the
merge rule on the existing-account update paths. -/
def sampleLinkedUser : User :=
  { username := "alice"
    email := "alice@example.com"
    hashedPassword := some "pwhash"
    displayName := some "Alice"
    avatarUrl := some "https://img.example/old.png"
    soundcloudUserId := some "sc-1"
    soundcloudAccessToken := some "sc-at"
    soundcloudRefreshToken := some "sc-rt"
    googleUserId := some "g-1"
    googleAccessToken := some "g-at"
    googleRefreshToken := some "g-rt"
    googleTokenExpiresAt := some 1000 }

/-- **C1, counterexample.** A populated local `avatar_url` is replaced by a
SoundCloud login: the existing-user branch of `soundcloud_callback` overwrites
`avatar_url` whenever the external avatar is non-empty, with no emptiness check
on the local value. -/
theorem merge_rule_counterexample :
    optTruthy sampleLinkedUser.avatarUrl = true ∧
      (soundcloudUpdateExisting sampleLinkedUser "t1" none "Alice SC"
          "https://img.example/new.png").avatarUrl
        = some "https://img.example/new.png" ∧
      (soundcloudUpdateExisting sampleLinkedUser "t1" none "Alice SC"
          "https://img.example/new.png").avatarUrl ≠ sampleLinkedUser.avatarUrl := by
  decide

/-- **C1, amended.** On the Google paths (existing link and link-by-e-mail),
`display_name` and `avatar_url` are overwritten only if the local value is
empty; on the SoundCloud existing-link path this holds for `display_name`,
but `avatar_url` is overwritten whenever the external avatar is non-empty,
regardless of the local value. -/
theorem merge_rule_amended (u : User) (tok pid : String) (rt : Option String)
    (ea : Option Nat) (nm pic fullName avatar : String) :
    (optTruthy u.displayName = true →
        (googleUpdateExisting u tok rt ea nm pic).displayName = u.displayName) ∧
      (optTruthy u.avatarUrl = true →
        (googleUpdateExisting u tok rt ea nm pic).avatarUrl = u.avatarUrl) ∧
      (optTruthy u.displayName = true →
        (googleLinkByEmail u pid tok rt ea nm pic).displayName = u.displayName) ∧
      (optTruthy u.avatarUrl = true →
        (googleLinkByEmail u pid tok rt ea nm pic).avatarUrl = u.avatarUrl) ∧
      (optTruthy u.displayName = true →
        (soundcloudUpdateExisting u tok rt fullName avatar).displayName
          = u.displayName) ∧
      (avatar ≠ "" →
        (soundcloudUpdateExisting u tok rt fullName avatar).avatarUrl = some avatar) ∧
      (avatar = "" →
        (soundcloudUpdateExisting u tok rt fullName avatar).avatarUrl = u.avatarUrl) := by
  refine ⟨?_, ?_, ?_, ?_, ?_, ?_, ?_⟩ <;> intro h <;>
    simp [googleUpdateExisting, googleLinkByEmail, soundcloudUpdateExisting, h]

/-- Witness for C1 (amended) at a concrete account with populated fields. -/
theorem merge_rule_amended_witness :
    optTruthy sampleLinkedUser.displayName = true ∧
      (googleUpdateExisting sampleLinkedUser "t2" none none "Bob"
          "https://img.example/p.png").displayName = sampleLinkedUser.displayName :=
  ⟨by decide,
    (merge_rule_amended sampleLinkedUser "t2" "p" none none "Bob"
        "https://img.example/p.png" "FN" "av").1 (by decide)⟩

/-- A local account whose e-mail matches the incoming profile but that already
carries a different `google_user_id`. -/
def oldLinkUser : User :=
  { username := "xuser"
    email := "x@y.com"
    hashedPassword := some "pwhash"
    displayName := none
    avatarUrl := none
    soundcloudUserId := none
    soundcloudAccessToken := none
    soundcloudRefreshToken := none
    googleUserId := some "p_old"
    googleAccessToken := some "at0"
    googleRefreshToken := some "rt0"
    googleTokenExpiresAt := some 50 }

/-- **C7, counterexample.** A profile whose `google_user_id` matches no account
but whose e-mail matches an account already linked to a *different*
`google_user_id` has that stored id overwritten: the e-mail lookup carries no
"no existing link" filter. -/
theorem google_link_by_email_counterexample :
    oldLinkUser.googleUserId = some "p_old" ∧
      googleResolve [oldLinkUser] "p_new" "x@y.com" "" "" "tok" none none
        = .linkedByEmail (googleLinkByEmail oldLinkUser "p_new" "tok" none none "" "") ∧
      (googleLinkByEmail oldLinkUser "p_new" "tok" none none "" "").googleUserId
        = some "p_new" := by
  decide

/-- **C7, amended.** The link-by-e-mail step applies to any account whose
e-mail matches, even one already carrying a different `google_user_id`; the
stored `google_user_id` is overwritten with the profile's. -/
theorem google_link_by_email_overwrites (db : List User)
    (pid email nm pic tok : String) (rt : Option String) (ea : Option Nat) (u : User)
    (hid : db.find? (fun v => v.googleUserId == some pid) = none)
    (hem : email ≠ "")
    (hfound : db.find? (fun v => v.email == email) = some u) :
    googleResolve db pid email nm pic tok rt ea
        = .linkedByEmail (googleLinkByEmail u pid tok rt ea nm pic) ∧
      (googleLinkByEmail u pid tok rt ea nm pic).googleUserId = some pid := by
  constructor
  · simp [googleResolve, hid, hem, hfound]
  · simp [googleLinkByEmail]

/-- Witness for C7 (amended) at the concrete one-account database. -/
theorem google_link_by_email_overwrites_witness :
    ([oldLinkUser].find? (fun v => v.googleUserId == some "p_new") = none) ∧
      googleResolve [oldLinkUser] "p_new2" "x@y.com" "" "" "tok" none none
          = .linkedByEmail (googleLinkByEmail oldLinkUser "p_new2" "tok" none none "" "") :=
  ⟨by decide,
    (google_link_by_email_overwrites [oldLinkUser] "p_new2" "x@y.com" "" "" "tok"
        none none oldLinkUser (by decide) (by decide) (by decide)).1⟩

lemma uniqueUsername_alice_collisions (taken : List String)
    (h1 : "alice" ∈ taken) (h2 : "alice_1" ∈ taken) (h3 : "alice_2" ∉ taken) :
    uniqueUsername taken "alice" = "alice_2" := by
  have hcard : 1 < taken.toFinset.card :=
    Finset.one_lt_card.mpr
      ⟨"alice", List.mem_toFinset.mpr h1, "alice_1", List.mem_toFinset.mpr h2,
        by decide⟩
  have hle := taken.toFinset_card_le
  obtain ⟨m, hm⟩ : ∃ m, taken.length + 1 = m + 3 :=
    ⟨taken.length - 2, by omega⟩
  unfold uniqueUsername
  rw [hm]
  simp [usernameLoop, h1, h2, h3,
    show ("alice_" ++ toString 1 : String) = "alice_1" from rfl,
    show ("alice_" ++ toString 2 : String) = "alice_2" from rfl]

/-- **C8.** When creating a new account, a derived base username colliding with
existing usernames receives the incrementing numeric suffix: with `alice` and
`alice_1` taken and `alice_2` free, both providers' create paths yield
`alice_2` (the Google profile name `"Alice"` and the SoundCloud username
`"Alice"` both derive base `alice`). -/
theorem username_collision_resolution (db : List User) (e pic tok : String)
    (rt : Option String) (ea : Option Nat)
    (h1 : "alice" ∈ db.map User.username) (h2 : "alice_1" ∈ db.map User.username)
    (h3 : "alice_2" ∉ db.map User.username) :
    (googleCreateUser db "pid" e "Alice" pic tok rt ea).username = "alice_2" ∧
      (soundcloudCreateUser db "scid" "Alice" "" "" tok rt).username = "alice_2" ∧
      uniqueUsername (db.map User.username) "alice" = "alice_2" := by
  have hmain := uniqueUsername_alice_collisions (db.map User.username) h1 h2 h3
  refine ⟨?_, ?_, hmain⟩
  · show uniqueUsername (db.map User.username)
      (deriveGoogleBaseUsername "Alice" e) = "alice_2"
    rw [show deriveGoogleBaseUsername "Alice" e = "alice" from rfl]
    exact hmain
  · show uniqueUsername (db.map User.username)
      (deriveSoundcloudBaseUsername "Alice") = "alice_2"
    rw [show deriveSoundcloudBaseUsername "Alice" = "alice" from rfl]
    exact hmain

/-- A minimal account occupying a username; only `username`/`email` matter to
the collision loops. -/
def takenUser (name email : String) : User :=
  { username := name
    email := email
    hashedPassword := none
    displayName := none
    avatarUrl := none
    soundcloudUserId := none
    soundcloudAccessToken := none
    soundcloudRefreshToken := none
    googleUserId := none
    googleAccessToken := none
    googleRefreshToken := none
    googleTokenExpiresAt := none }

/-- Witness for C8 at the concrete database `{alice, alice_1}`. -/
theorem username_collision_resolution_witness :
    "alice" ∈ [takenUser "alice" "a@z.com", takenUser "alice_1" "b@z.com"].map
        User.username ∧
      (googleCreateUser
          [takenUser "alice" "a@z.com", takenUser "alice_1" "b@z.com"]
          "pid" "new@z.com" "Alice" "" "tok" none none).username = "alice_2" :=
  ⟨by decide,
    (username_collision_resolution
        [takenUser "alice" "a@z.com", takenUser "alice_1" "b@z.com"]
        "new@z.com" "" "tok" none none (by decide) (by decide) (by decide)).1⟩

/-- An account whose placeholder e-mail still uses the legacy
`@soundcloud.local` domain. -/
def scLocalEmailUser : User :=
  { username := "bob"
    email := "bob@soundcloud.local"
    hashedPassword := none
    displayName := some "Bob"
    avatarUrl := none
    soundcloudUserId := some "sc-9"
    soundcloudAccessToken := some "at9"
    soundcloudRefreshToken := none
    googleUserId := none
    googleAccessToken := none
    googleRefreshToken := none
    googleTokenExpiresAt := none }

/-- **C9, counterexample.** Resolving to an existing account can modify the
account's e-mail: the SoundCloud existing-user branch rewrites an e-mail ending
in `@soundcloud.local` to the `@soundcloud.oauth` domain. -/
theorem resolve_frame_counterexample :
    (soundcloudUpdateExisting scLocalEmailUser "t" none "" "").email
        = "bob@soundcloud.oauth" ∧
      (soundcloudUpdateExisting scLocalEmailUser "t" none "" "").email
        ≠ scLocalEmailUser.email := by
  decide

/-- **C9, amended.** For every callback resolving to an existing account, the
persisted fields modified are the provider credential fields plus
`display_name`/`avatar_url`; `username` and the local password hash are always
unchanged, and the e-mail is unchanged except that the SoundCloud path rewrites
an e-mail ending in `@soundcloud.local` to the same local part at
`@soundcloud.oauth`. -/
theorem resolve_frame_amended (u : User) (tok pid : String) (rt : Option String)
    (ea : Option Nat) (nm pic fullName avatar : String) :
    (googleUpdateExisting u tok rt ea nm pic).username = u.username ∧
      (googleUpdateExisting u tok rt ea nm pic).email = u.email ∧
      (googleUpdateExisting u tok rt ea nm pic).hashedPassword = u.hashedPassword ∧
      (googleLinkByEmail u pid tok rt ea nm pic).username = u.username ∧
      (googleLinkByEmail u pid tok rt ea nm pic).email = u.email ∧
      (googleLinkByEmail u pid tok rt ea nm pic).hashedPassword = u.hashedPassword ∧
      (soundcloudUpdateExisting u tok rt fullName avatar).username = u.username ∧
      (soundcloudUpdateExisting u tok rt fullName avatar).hashedPassword
        = u.hashedPassword ∧
      (strEndsWith u.email "@soundcloud.local" = false →
        (soundcloudUpdateExisting u tok rt fullName avatar).email = u.email) ∧
      (u.email ≠ "" → strEndsWith u.email "@soundcloud.local" = true →
        (soundcloudUpdateExisting u tok rt fullName avatar).email
          = strReplace u.email "@soundcloud.local" "" ++ "@soundcloud.oauth") := by
  refine ⟨rfl, rfl, rfl, rfl, rfl, rfl, rfl, rfl, ?_, ?_⟩
  · intro h
    simp [soundcloudUpdateExisting, h]
  · intro h1 h2
    simp [soundcloudUpdateExisting, h1, h2]

/-- Witness for C9 (amended): the non-`@soundcloud.local` case leaves the
e-mail unchanged at a concrete account. -/
theorem resolve_frame_amended_witness :
    strEndsWith sampleLinkedUser.email "@soundcloud.local" = false ∧
      (soundcloudUpdateExisting sampleLinkedUser "t" none "FN" "av").email
        = sampleLinkedUser.email :=
  ⟨by decide,
    (resolve_frame_amended sampleLinkedUser "t" "p" none none "n" "p" "FN"
        "av").2.2.2.2.2.2.2.2.1 (by decide)⟩

/-! ## Provider client and token custodian

Embeds `backend/app/services/google_oauth.py`: the error taxonomy (the two
exception classes), the HTTP-response classification of
`exchange_code_for_token`, `get_google_user_info` and `refresh_google_token`,
and the token custodian `ensure_valid_google_token`/`update_user_tokens`.
Network I/O is abstracted as an `HttpResult` (the provider's response, a
timeout, or a network error) plus the parsed JSON payload used on a 200
response; configuration is assumed valid (`validate_google_oauth_config`
failures raise `GoogleOAuthConfigurationError` before any network I/O and are
out of scope of these claims). -/

/-- The two exception classes of google_oauth.py (lines 16-23), carrying their
message strings. -/
inductive GoogleOAuthError where
  | configurationError (msg : String)
  | apiError (msg : String)
deriving Repr, DecidableEq

instance {ε α : Type} [DecidableEq ε] [DecidableEq α] : DecidableEq (Except ε α)
  | .ok a, .ok b =>
    match decEq a b with
    | isTrue h => isTrue (by rw [h])
    | isFalse h => isFalse (fun hh => h (Except.ok.inj hh))
  | .ok _, .error _ => isFalse (fun hh => Except.noConfusion hh)
  | .error _, .ok _ => isFalse (fun hh => Except.noConfusion hh)
  | .error a, .error b =>
    match decEq a b with
    | isTrue h => isTrue (by rw [h])
    | isFalse h => isFalse (fun hh => h (Except.error.inj hh))

/-- The parsed JSON of a token response: `data.get("access_token")`,
`data.get("refresh_token")`, `data.get("expires_in")`. -/
structure TokenData where
  accessToken : Option String
  refreshToken : Option String
  expiresIn : Option Nat
deriving Repr, DecidableEq

/-- The parsed JSON of a userinfo response, with the callback's `.get`
defaults already applied (auth.py lines 568-571). -/
structure GoogleProfile where
  id : String
  email : String
  name : String
  picture : String
deriving Repr, DecidableEq

/-- The outcome of one provider HTTP round trip. -/
inductive HttpResult where
  | response (status : Nat) (body : String)
  | timeout
  | networkError
deriving Repr, DecidableEq

/-- `exchange_code_for_token` (google_oauth.py lines 100-144): 200 returns the
parsed payload; otherwise classify the truncated body (`response.text[:200]`)
by substring into invalid_grant / invalid_client / other, the last embedding
the truncated raw body in the message; timeouts and network errors map to
fixed messages. -/
def exchangeCodeForToken (r : HttpResult) (parsed : TokenData) :
    Except GoogleOAuthError TokenData :=
  match r with
  | .response status body =>
    if status = 200 then .ok parsed
    else
      let errorText := strTake body 200
      if strContains (strLower errorText) "invalid_grant" then
        .error (.apiError
          "Authorization code is invalid or has already been used. Please try signing in again.")
      else if strContains (strLower errorText) "invalid_client" then
        .error (.configurationError
          "Google OAuth client credentials are invalid. Please check your configuration.")
      else
        .error (.apiError
          ("Failed to exchange authorization code for token. Google returned: "
            ++ errorText))
  | .timeout => .error (.apiError "Request to Google timed out. Please try again.")
  | .networkError =>
    .error (.apiError
      "Network error occurred while connecting to Google. Please check your internet connection and try again.")

/-- `get_google_user_info` (google_oauth.py lines 167-198): 200 returns the
parsed profile, 401 and other statuses map to fixed messages (the status code,
never the body, appears in the latter). -/
def getGoogleUserInfo (r : HttpResult) (parsed : GoogleProfile) :
    Except GoogleOAuthError GoogleProfile :=
  match r with
  | .response status _ =>
    if status = 200 then .ok parsed
    else if status = 401 then
      .error (.apiError "Access token is invalid or expired. Please sign in again.")
    else
      .error (.apiError
        ("Failed to fetch user information from Google. Status: " ++ toString status))
  | .timeout => .error (.apiError "Request to Google timed out. Please try again.")
  | .networkError =>
    .error (.apiError
      "Network error occurred while fetching user information. Please check your internet connection and try again.")

/-- `refresh_google_token` (google_oauth.py lines 227-267): 200 returns the
parsed payload; 400 is classified by the invalid_grant substring, the other
400 case embedding the truncated raw body; any other status maps to a message
carrying only the status code; timeouts and network errors map to fixed
messages. -/
def refreshGoogleToken (r : HttpResult) (parsed : TokenData) :
    Except GoogleOAuthError TokenData :=
  match r with
  | .response status body =>
    if status = 200 then .ok parsed
    else if status = 400 then
      let errorText := strTake body 200
      if strContains (strLower errorText) "invalid_grant" then
        .error (.apiError "Refresh token is invalid or expired. Please sign in again.")
      else
        .error (.apiError
          ("Failed to refresh access token. Google returned: " ++ errorText))
    else
      .error (.apiError ("Failed to refresh access token. Status: " ++ toString status))
  | .timeout => .error (.apiError "Request to Google timed out. Please try again.")
  | .networkError =>
    .error (.apiError
      "Network error occurred while refreshing token. Please check your internet connection and try again.")

/-- The exception-to-HTTP mapping of `google_callback`'s exchange step
(auth.py lines 506-517): `GoogleOAuthConfigurationError` becomes a 503 and
`GoogleOAuthAPIError` a 400, both with `detail=str(e)`. -/
def googleCallbackErrorResponse : GoogleOAuthError → Nat × String
  | .configurationError m => (503, m)
  | .apiError m => (400, m)

/-- The 5-minute expiry buffer of `ensure_valid_google_token`
(google_oauth.py line 318), in seconds. -/
def refreshBufferSeconds : Nat := 300

/-- The token-clearing step of `ensure_valid_google_token`'s
`except GoogleOAuthAPIError` handler (google_oauth.py lines 350-353). -/
def clearGoogleTokens (u : User) : User :=
  { u with
    googleAccessToken := none
    googleRefreshToken := none
    googleTokenExpiresAt := none }

/-- `update_user_tokens` (google_oauth.py lines 270-293): always store the new
access token; store the refresh token only if truthy; recompute `expires_at`
only if `expires_in` is truthy (in particular, a missing or zero `expires_in`
leaves the stored `expires_at` unchanged). -/
def updateUserTokens (u : User) (now : Nat) (accessToken : String)
    (refreshToken : Option String) (expiresIn : Option Nat) : User :=
  { u with
    googleAccessToken := some accessToken
    googleRefreshToken :=
      if optTruthy refreshToken then refreshToken else u.googleRefreshToken
    googleTokenExpiresAt :=
      if optNatTruthy expiresIn then some (now + expiresIn.getD 0)
      else u.googleTokenExpiresAt }

/-- The observable outcome of one `ensure_valid_google_token` call: the
returned token or raised error, the persisted user row, and the number of
refresh network calls made. -/
structure EnsureResult where
  result : Except GoogleOAuthError String
  user : User
  refreshCalls : Nat
deriving Repr, DecidableEq

/-- `ensure_valid_google_token` (google_oauth.py lines 296-360). The refresh
round trip, when one happens, is abstracted by `resp`/`parsed`. Any
`GoogleOAuthAPIError` out of the refresh path — including the errors raised
locally for an empty payload or a missing access token — is caught by the
handler at line 349, which clears all three credential fields; a
`GoogleOAuthConfigurationError` falls to the generic handler at line 356,
which re-raises as `GoogleOAuthAPIError` without clearing. -/
def ensureValidGoogleToken (u : User) (now : Nat) (resp : HttpResult)
    (parsed : TokenData) : EnsureResult :=
  if !optTruthy u.googleAccessToken then
    ⟨.error (.apiError "User has no Google access token. Please sign in with Google."),
      u, 0⟩
  else
    match u.googleTokenExpiresAt with
    | some expiresAt =>
      if expiresAt ≤ now + refreshBufferSeconds then
        if !optTruthy u.googleRefreshToken then
          ⟨.error (.apiError
            "Google access token is expired and no refresh token available. Please sign in again."),
            u, 0⟩
        else
          match refreshGoogleToken resp parsed with
          | .error (.apiError msg) =>
            ⟨.error (.apiError msg), clearGoogleTokens u, 1⟩
          | .error (.configurationError _) =>
            ⟨.error (.apiError
              "An unexpected error occurred while refreshing your Google token. Please sign in again."),
              u, 1⟩
          | .ok d =>
            if d = ⟨none, none, none⟩ then
              ⟨.error (.apiError "Failed to refresh Google access token. Please sign in again."),
                clearGoogleTokens u, 1⟩
            else
              match d.accessToken with
              | some a =>
                if a = "" then
                  ⟨.error (.apiError "No access token received during refresh. Please sign in again."),
                    clearGoogleTokens u, 1⟩
                else
                  ⟨.ok a, updateUserTokens u now a d.refreshToken d.expiresIn, 1⟩
              | none =>
                ⟨.error (.apiError "No access token received during refresh. Please sign in again."),
                  clearGoogleTokens u, 1⟩
      else ⟨.ok (u.googleAccessToken.getD ""), u, 0⟩
    | none => ⟨.ok (u.googleAccessToken.getD ""), u, 0⟩

/-- **C3.** If a refresh triggered by `ensure_valid_google_token` fails with
invalid_grant, all three stored credential fields are cleared and the call
fails with a `GoogleOAuthAPIError` (refresh unavailable); every subsequent
call on that account fails with a `GoogleOAuthAPIError` as well, making no
network call and leaving the account unchanged. -/
theorem dead_refresh_token_cleanup (u : User) (now e : Nat) (body : String)
    (parsed : TokenData)
    (hAcc : optTruthy u.googleAccessToken = true)
    (hExp : u.googleTokenExpiresAt = some e)
    (hBuf : e ≤ now + refreshBufferSeconds)
    (hRef : optTruthy u.googleRefreshToken = true)
    (hGrant : strContains (strLower (strTake body 200)) "invalid_grant" = true) :
    ensureValidGoogleToken u now (.response 400 body) parsed =
        ⟨.error (.apiError "Refresh token is invalid or expired. Please sign in again."),
          clearGoogleTokens u, 1⟩ ∧
      (clearGoogleTokens u).googleAccessToken = none ∧
      (clearGoogleTokens u).googleRefreshToken = none ∧
      (clearGoogleTokens u).googleTokenExpiresAt = none ∧
      ∀ (now2 : Nat) (resp2 : HttpResult) (parsed2 : TokenData),
        ensureValidGoogleToken (clearGoogleTokens u) now2 resp2 parsed2 =
          ⟨.error (.apiError "User has no Google access token. Please sign in with Google."),
            clearGoogleTokens u, 0⟩ := by
  refine ⟨?_, rfl, rfl, rfl, ?_⟩
  · simp [ensureValidGoogleToken, refreshGoogleToken, hAcc, hExp, hBuf, hRef, hGrant]
  · intro now2 resp2 parsed2
    simp [ensureValidGoogleToken, clearGoogleTokens, optTruthy]

/-- An account whose Google token is within the refresh buffer, used to
exercise the custodian's refresh paths. -/
def expiringUser : User :=
  { username := "carol"
    email := "carol@example.com"
    hashedPassword := none
    displayName := none
    avatarUrl := none
    soundcloudUserId := none
    soundcloudAccessToken := none
    soundcloudRefreshToken := none
    googleUserId := some "g2"
    googleAccessToken := some "atA"
    googleRefreshToken := some "rtA"
    googleTokenExpiresAt := some 100 }

/-- Witness for C3 at a concrete account and an invalid_grant refresh
response. -/
theorem dead_refresh_token_cleanup_witness :
    optTruthy expiringUser.googleAccessToken = true ∧
      ensureValidGoogleToken expiringUser 0
          (.response 400 "error=invalid_grant") ⟨none, none, none⟩ =
        ⟨.error (.apiError "Refresh token is invalid or expired. Please sign in again."),
          clearGoogleTokens expiringUser, 1⟩ :=
  ⟨by decide,
    (dead_refresh_token_cleanup expiringUser 0 100 "error=invalid_grant"
        ⟨none, none, none⟩ (by decide) (by decide) (by decide) (by decide)
        (by decide)).1⟩

/-- **C4, counterexample.** A refresh that fails with a timeout — a transient
failure the spec classifies as `ProviderUnavailable` — also clears all three
stored credential fields, because `ensure_valid_google_token` catches every
`GoogleOAuthAPIError` alike; the fields are not left unchanged. -/
theorem transient_refresh_counterexample :
    ensureValidGoogleToken expiringUser 0 .timeout ⟨none, none, none⟩ =
        ⟨.error (.apiError "Request to Google timed out. Please try again."),
          clearGoogleTokens expiringUser, 1⟩ ∧
      (ensureValidGoogleToken expiringUser 0 .timeout
          ⟨none, none, none⟩).user.googleAccessToken = none ∧
      expiringUser.googleAccessToken = some "atA" ∧
      expiringUser.googleRefreshToken = some "rtA" := by
  decide

/-- **C4, amended.** Every refresh failure raised as `GoogleOAuthAPIError` —
invalid_grant, but also timeout, network error, and any non-2xx status — makes
`ensure_valid_google_token` clear the three stored credential fields; every
non-200 refresh response, and a timeout or network error, is classified as a
`GoogleOAuthAPIError`. -/
theorem transient_refresh_clears (u : User) (now e : Nat) (resp : HttpResult)
    (parsed : TokenData) (msg : String)
    (hAcc : optTruthy u.googleAccessToken = true)
    (hExp : u.googleTokenExpiresAt = some e)
    (hBuf : e ≤ now + refreshBufferSeconds)
    (hRef : optTruthy u.googleRefreshToken = true)
    (hFail : refreshGoogleToken resp parsed = .error (.apiError msg)) :
    ensureValidGoogleToken u now resp parsed
        = ⟨.error (.apiError msg), clearGoogleTokens u, 1⟩ ∧
      (∀ (s : Nat) (b : String) (p2 : TokenData), s ≠ 200 →
        ∃ m2, refreshGoogleToken (.response s b) p2 = .error (.apiError m2)) ∧
      refreshGoogleToken .timeout parsed
        = .error (.apiError "Request to Google timed out. Please try again.") ∧
      refreshGoogleToken .networkError parsed
        = .error (.apiError
            "Network error occurred while refreshing token. Please check your internet connection and try again.") := by
  refine ⟨?_, ?_, rfl, rfl⟩
  · simp [ensureValidGoogleToken, hAcc, hExp, hBuf, hRef, hFail]
  · intro s b p2 hs
    simp only [refreshGoogleToken]
    rw [if_neg hs]
    split_ifs <;> exact ⟨_, rfl⟩

/-- Witness for C4 (amended) at a concrete account and a timeout. -/
theorem transient_refresh_clears_witness :
    refreshGoogleToken .timeout ⟨none, none, none⟩
        = .error (.apiError "Request to Google timed out. Please try again.") ∧
      ensureValidGoogleToken expiringUser 10 .timeout ⟨none, none, none⟩ =
        ⟨.error (.apiError "Request to Google timed out. Please try again."),
          clearGoogleTokens expiringUser, 1⟩ :=
  ⟨by decide,
    (transient_refresh_clears expiringUser 10 100 .timeout ⟨none, none, none⟩
        "Request to Google timed out. Please try again." (by decide) (by decide)
        (by decide) (by decide) (by decide)).1⟩

/-- **C5, counterexample.** A non-2xx code-exchange response whose body
mentions neither invalid_grant nor invalid_client has its raw body embedded in
the `GoogleOAuthAPIError` message, which `google_callback` returns verbatim as
the detail of its 400 response: the raw provider body does reach the end
user. -/
theorem raw_body_in_error_counterexample :
    exchangeCodeForToken (.response 500 "upstream quota detail xyz")
          ⟨none, none, none⟩
        = .error (.apiError
            "Failed to exchange authorization code for token. Google returned: upstream quota detail xyz") ∧
      googleCallbackErrorResponse
          (.apiError
            "Failed to exchange authorization code for token. Google returned: upstream quota detail xyz")
        = (400,
            "Failed to exchange authorization code for token. Google returned: upstream quota detail xyz") ∧
      strContains
          "Failed to exchange authorization code for token. Google returned: upstream quota detail xyz"
          "upstream quota detail xyz" = true := by
  decide

/-- **C5, amended.** Non-2xx classification: invalid_grant and invalid_client
exchange failures, invalid_grant refresh failures, non-400 refresh failures,
profile-fetch failures, timeouts and network errors all carry fixed messages
free of the response body; but an exchange failure whose truncated body
mentions neither marker, and a 400 refresh failure without invalid_grant,
embed the first 200 characters of the raw provider body in the message, which
the callback returns as the detail of its 400 response. -/
theorem error_classification_amended (status : Nat) (body : String)
    (parsed : TokenData) (pprof : GoogleProfile) :
    (status ≠ 200 →
        strContains (strLower (strTake body 200)) "invalid_grant" = true →
        exchangeCodeForToken (.response status body) parsed = .error (.apiError
          "Authorization code is invalid or has already been used. Please try signing in again.")) ∧
      (status ≠ 200 →
        strContains (strLower (strTake body 200)) "invalid_grant" = false →
        strContains (strLower (strTake body 200)) "invalid_client" = true →
        exchangeCodeForToken (.response status body) parsed = .error (.configurationError
          "Google OAuth client credentials are invalid. Please check your configuration.")) ∧
      (status ≠ 200 →
        strContains (strLower (strTake body 200)) "invalid_grant" = false →
        strContains (strLower (strTake body 200)) "invalid_client" = false →
        exchangeCodeForToken (.response status body) parsed = .error (.apiError
            ("Failed to exchange authorization code for token. Google returned: "
              ++ strTake body 200)) ∧
          googleCallbackErrorResponse (.apiError
              ("Failed to exchange authorization code for token. Google returned: "
                ++ strTake body 200))
            = (400, "Failed to exchange authorization code for token. Google returned: "
                ++ strTake body 200)) ∧
      (strContains (strLower (strTake body 200)) "invalid_grant" = true →
        refreshGoogleToken (.response 400 body) parsed = .error (.apiError
          "Refresh token is invalid or expired. Please sign in again.")) ∧
      (strContains (strLower (strTake body 200)) "invalid_grant" = false →
        refreshGoogleToken (.response 400 body) parsed = .error (.apiError
          ("Failed to refresh access token. Google returned: " ++ strTake body 200))) ∧
      (status ≠ 200 → status ≠ 400 →
        refreshGoogleToken (.response status body) parsed = .error (.apiError
          ("Failed to refresh access token. Status: " ++ toString status))) ∧
      (getGoogleUserInfo (.response 401 body) pprof = .error (.apiError
        "Access token is invalid or expired. Please sign in again.")) ∧
      (status ≠ 200 → status ≠ 401 →
        getGoogleUserInfo (.response status body) pprof = .error (.apiError
          ("Failed to fetch user information from Google. Status: " ++ toString status))) ∧
      (exchangeCodeForToken .timeout parsed
        = .error (.apiError "Request to Google timed out. Please try again.")) ∧
      (exchangeCodeForToken .networkError parsed
        = .error (.apiError
            "Network error occurred while connecting to Google. Please check your internet connection and try again.")) := by
  refine ⟨?_, ?_, ?_, ?_, ?_, ?_, ?_, ?_, rfl, rfl⟩
  · intro h1 h2
    simp [exchangeCodeForToken, h1, h2]
  · intro h1 h2 h3
    simp [exchangeCodeForToken, h1, h2, h3]
  · intro h1 h2 h3
    exact ⟨by simp [exchangeCodeForToken, h1, h2, h3], rfl⟩
  · intro h1
    simp [refreshGoogleToken, h1]
  · intro h1
    simp [refreshGoogleToken, h1]
  · intro h1 h2
    simp [refreshGoogleToken, h1, h2]
  · simp [getGoogleUserInfo]
  · intro h1 h2
    simp [getGoogleUserInfo, h1, h2]

/-- Witness for C5 (amended): the invalid_grant exchange case at a concrete
response. -/
theorem error_classification_amended_witness :
    strContains (strLower (strTake "error=invalid_grant" 200)) "invalid_grant" = true ∧
      exchangeCodeForToken (.response 400 "error=invalid_grant") ⟨none, none, none⟩
        = .error (.apiError
            "Authorization code is invalid or has already been used. Please try signing in again.") :=
  ⟨by decide,
    (error_classification_amended 400 "error=invalid_grant" ⟨none, none, none⟩
        ⟨"", "", "", ""⟩).1 (by decide) (by decide)⟩

/-- **C6, counterexample.** A successful refresh whose response carries no
`expires_in` leaves the stored `expires_at` unchanged: after the refresh the
account's `expires_at` has not strictly increased. -/
theorem refresh_monotonicity_counterexample :
    ensureValidGoogleToken expiringUser 0 (.response 200 "")
          ⟨some "newTok", none, none⟩
        = ⟨.ok "newTok", updateUserTokens expiringUser 0 "newTok" none none, 1⟩ ∧
      (updateUserTokens expiringUser 0 "newTok" none none).googleTokenExpiresAt
        = some 100 ∧
      expiringUser.googleTokenExpiresAt = some 100 := by
  decide

/-- **C6, amended.** On a successful refresh whose response carries
`expires_in` greater than the 5-minute buffer, the stored `expires_at`
strictly increases to `now + expires_in` and the stored token becomes the
refreshed one; a subsequent `ensure_valid_google_token` call made while the
new token is still valid beyond the buffer returns the new token with no
network call (and in particular not the pre-refresh token). A response
without `expires_in` leaves `expires_at` unchanged (see the
counterexample). -/
theorem refresh_monotonicity_amended (u : User) (now exp e : Nat)
    (aOld aNew body : String) (rt : Option String)
    (hAcc : u.googleAccessToken = some aOld) (hOld : aOld ≠ "")
    (hExp : u.googleTokenExpiresAt = some exp)
    (hBuf : exp ≤ now + refreshBufferSeconds)
    (hRef : optTruthy u.googleRefreshToken = true)
    (hNew : aNew ≠ "") (hE : refreshBufferSeconds < e) :
    ensureValidGoogleToken u now (.response 200 body) ⟨some aNew, rt, some e⟩
        = ⟨.ok aNew, updateUserTokens u now aNew rt (some e), 1⟩ ∧
      (updateUserTokens u now aNew rt (some e)).googleTokenExpiresAt
        = some (now + e) ∧
      exp < now + e ∧
      (updateUserTokens u now aNew rt (some e)).googleAccessToken = some aNew ∧
      (∀ (now2 : Nat) (resp2 : HttpResult) (parsed2 : TokenData),
        now2 + refreshBufferSeconds < now + e →
        ensureValidGoogleToken (updateUserTokens u now aNew rt (some e)) now2
            resp2 parsed2
          = ⟨.ok aNew, updateUserTokens u now aNew rt (some e), 0⟩) ∧
      (aNew ≠ aOld →
        (Except.ok aNew : Except GoogleOAuthError String) ≠ Except.ok aOld) := by
  have hE0 : e ≠ 0 := by
    have := hE
    simp only [refreshBufferSeconds] at this
    omega
  have hu1 : (updateUserTokens u now aNew rt (some e)).googleAccessToken
      = some aNew := by
    simp [updateUserTokens]
  have hu2 : (updateUserTokens u now aNew rt (some e)).googleTokenExpiresAt
      = some (now + e) := by
    simp [updateUserTokens, optNatTruthy, hE0]
  have hAccT : optTruthy u.googleAccessToken = true := by
    simp [hAcc, optTruthy, hOld]
  refine ⟨?_, hu2, ?_, hu1, ?_, ?_⟩
  · simp [ensureValidGoogleToken, refreshGoogleToken, hAccT, hExp, hBuf, hRef,
      hNew]
  · have := hBuf
    simp only [refreshBufferSeconds] at this hE ⊢
    omega
  · intro now2 resp2 parsed2 hlt
    have hcond : ¬ (now + e ≤ now2 + refreshBufferSeconds) := by omega
    simp [ensureValidGoogleToken, hu1, hu2, optTruthy, hNew, hcond]
  · intro hne
    simp [hne]

/-- Witness for C6 (amended) at a concrete account and refresh response. -/
theorem refresh_monotonicity_amended_witness :
    refreshBufferSeconds < 400 ∧
      ensureValidGoogleToken expiringUser 90 (.response 200 "")
          ⟨some "newTok", none, some 400⟩
        = ⟨.ok "newTok", updateUserTokens expiringUser 90 "newTok" none (some 400), 1⟩ :=
  ⟨by decide,
    (refresh_monotonicity_amended expiringUser 90 100 400 "atA" "newTok" ""
        none (by decide) (by decide) (by decide) (by decide) (by decide)
        (by decide) (by decide)).1⟩

end SetDB
